import Mathlib

/-
Shallow embedding of the fastapi_project_2_deploy repository: data model
(app/models.py, app/schemas.py), CRUD lookups (app/crud.py) and the route
handlers for recommendations, comments and reactions
(app/routers/recommendations.py, app/routers/comments.py,
app/routers/reactions.py).

Conventions of the embedding:
- database rows are Lean structures mirroring the SQLModel table classes;
  a table is a Lean list of rows, and the whole store is the `DB` structure;
- `id` columns are `Nat`; rows not yet inserted (SQLModel objects built with
  `id=None`) carry `id = none` where the distinction matters (Tag,
  FictionType objects returned unsaved by the deduplicator);
- timestamps are `Nat` clock readings; `datetime.utcnow()` is `utcnow`
  applied to the clock reading at the moment the Python expression runs
  (for `Field(default=datetime.utcnow())` that moment is module import);
- an HTTPException is an `ApiError`; a handler returns its response
  together with the store after the request; every raise happens before
  any commit, so on an error the store is returned unchanged;
- a commit that hits the storage engine's uniqueness constraint is an
  `Except.error CommitError.uniqueViolation`; the Python handlers install
  no exception handler around `session.commit()`, so in the embedding such
  a failure becomes `ApiError.internalError` (FastAPI's unhandled-exception
  500) with the transaction rolled back.
-/

namespace FastapiProject

/-- app/models.py `User` (fields of UserBase plus id and hashed_password). -/
structure UserRow where
  id : Nat
  username : String
  email : String
  hashed_password : String
deriving DecidableEq, Repr

/-- app/models.py `FictionType`; `id = none` for an object not yet inserted. -/
structure FictionTypeRow where
  id : Option Nat
  name : String
  slug : String
deriving DecidableEq, Repr

/-- app/models.py `Tag`; `id = none` for an object not yet inserted. -/
structure TagRow where
  id : Option Nat
  name : String
deriving DecidableEq, Repr

/-- app/models.py `RecommendationTagLink` (table tagged_recommendations),
composite primary key (recommendation_id, tag_id). -/
structure TagLinkRow where
  recommendation_id : Nat
  tag_id : Nat
deriving DecidableEq, Repr

/-- app/models.py `Recommendation` (fields of RecommendationBase plus the
table columns). -/
structure RecommendationRow where
  id : Nat
  title : String
  short_description : String
  opinion : String
  published : Nat
  updated : Option Nat
  user_id : Nat
  fiction_type_id : Nat
deriving DecidableEq, Repr

/-- app/models.py `Comment`. -/
structure CommentRow where
  id : Nat
  content : String
  published : Nat
  updated : Option Nat
  user_id : Nat
  recommendation_id : Nat
deriving DecidableEq, Repr

/-- app/models.py `Reaction`; the table also carries
`UniqueConstraint(user_id, recommendation_id)`. -/
structure ReactionRow where
  id : Nat
  is_positive : Bool
  user_id : Nat
  recommendation_id : Nat
deriving DecidableEq, Repr

/-- The relational store: one list per table plus an id allocator standing
for the autoincrement sequences. -/
structure DB where
  fiction_types : List FictionTypeRow
  tags : List TagRow
  tag_links : List TagLinkRow
  recommendations : List RecommendationRow
  comments : List CommentRow
  reactions : List ReactionRow
  nextId : Nat
deriving DecidableEq, Repr

/-- fastapi HTTPException as raised by the handlers, plus the 500 produced
by an exception that no handler catches (e.g. IntegrityError at commit). -/
inductive ApiError where
  | notFound (detail : String)
  | forbidden (detail : String)
  | badRequest (detail : String)
  | conflict (detail : String)
  | internalError
deriving DecidableEq, Repr

/-- The HTTP status code each error surfaces as. -/
def ApiError.statusCode : ApiError → Nat
  | .notFound _ => 404
  | .forbidden _ => 403
  | .badRequest _ => 400
  | .conflict _ => 409
  | .internalError => 500

/-- Whether a handler response is the 403 Forbidden outcome. -/
def isForbidden {α : Type} : Except ApiError α → Bool
  | .error (.forbidden _) => true
  | _ => false

/-- Whether a handler response is the 404 Not Found outcome. -/
def isNotFound {α : Type} : Except ApiError α → Bool
  | .error (.notFound _) => true
  | _ => false

/-- `datetime.utcnow()`: reads the wall clock at the moment the expression
is evaluated; the reading is passed in explicitly. -/
def utcnow (clock : Nat) : Nat := clock

/-- app/models.py line 43: `published: datetime = Field(default=datetime.utcnow())`.
The default expression calls `datetime.utcnow()` once, when app/models.py is
imported, so the default is the clock reading at process start. -/
def recommendation_published_default (models_import_clock : Nat) : Nat :=
  utcnow models_import_clock

/-- app/models.py line 72: `published: datetime = Field(default=datetime.utcnow())`
on `Comment`, likewise evaluated once at module import. -/
def comment_published_default (models_import_clock : Nat) : Nat :=
  utcnow models_import_clock

/- ---------------------------------------------------------------- -/
/- app/crud.py lookups used by the handlers                          -/
/- ---------------------------------------------------------------- -/

/-- app/crud.py `get_recommendation_by_id` (`session.get` primary-key lookup). -/
def get_recommendation_by_id (db : DB) (recommendation_id : Nat) :
    Option RecommendationRow :=
  db.recommendations.find? (fun r => r.id == recommendation_id)

/-- app/crud.py `get_comment_by_id_and_recommendation_id`. -/
def get_comment_by_id_and_recommendation_id (db : DB)
    (recommendation_id comment_id : Nat) : Option CommentRow :=
  db.comments.find?
    (fun c => c.recommendation_id == recommendation_id && c.id == comment_id)

/-- app/crud.py `get_reaction_by_id_and_recommendation_id`. -/
def get_reaction_by_id_and_recommendation_id (db : DB)
    (recommendation_id reaction_id : Nat) : Option ReactionRow :=
  db.reactions.find?
    (fun x => x.recommendation_id == recommendation_id && x.id == reaction_id)

/-- app/crud.py `get_reaction_by_recommendation_id_and_user_id`. -/
def get_reaction_by_recommendation_id_and_user_id (db : DB)
    (recommendation_id user_id : Nat) : Option ReactionRow :=
  db.reactions.find?
    (fun x => x.recommendation_id == recommendation_id && x.user_id == user_id)

/- ---------------------------------------------------------------- -/
/- app/routers/recommendations.py: the deduplicator                  -/
/- ---------------------------------------------------------------- -/

/-- Python `str.isspace` characters (ASCII range, the domain of the data). -/
def is_py_space (c : Char) : Bool :=
  c == ' ' || c == '\t' || c == '\n' || c == '\r' || c == '\x0b' || c == '\x0c'

/-- Python `str.strip()`: drop leading and trailing whitespace. Strings are
handled through their character lists so that every operation is a plain
structural computation. -/
def py_strip (l : List Char) : List Char :=
  ((l.dropWhile is_py_space).reverse.dropWhile is_py_space).reverse

/-- Python `str.replace(pat, rep)` for a one-character pattern and
replacement: substitute every occurrence, one for one. -/
def py_replace_char (pat rep : Char) (l : List Char) : List Char :=
  l.map (fun c => if c == pat then rep else c)

/-- Python `str.lower()` on the ASCII range of the data. -/
def py_lower_char (c : Char) : Char :=
  if 'A' ≤ c && c ≤ 'Z' then Char.ofNat (c.toNat + 32) else c

/-- Python `str.lower()`: character-wise lowering. -/
def py_lower (l : List Char) : List Char := l.map py_lower_char

/-- The normalization applied to each raw tag label in `save_tags` line 21:
`tag.strip().replace(' ', '-').lower()` — trim surrounding whitespace,
replace every space character by a hyphen (one hyphen per space), then
lower-case. -/
def normalize_tag_name (tag : String) : String :=
  String.mk (py_lower (py_replace_char ' ' '-' (py_strip tag.data)))

/-- The normalization applied to the raw fiction-type name in
`save_fiction_type` line 37: `fiction_type.strip().lower()` — trim and
lower-case; internal spaces are kept in the name. -/
def normalize_fiction_type_name (fiction_type : String) : String :=
  String.mk (py_lower (py_strip fiction_type.data))

/-- app/routers/recommendations.py `save_tags`: for each raw label,
normalize it, look for an existing Tag row with that name, and return the
existing row if found, else a new Tag object that is NOT added to the
session (the comment in the source defers persistence to the
recommendation's commit). Each iteration queries the store, which the loop
never modifies, so the loop is a map. -/
def save_tags (db : DB) (tags : List String) : List TagRow :=
  tags.map fun tag =>
    let tag := normalize_tag_name tag
    match db.tags.find? (fun t => t.name == tag) with
    | some existing_tag => existing_tag
    | none => { id := none, name := tag }

/-- app/routers/recommendations.py `save_fiction_type`: normalize, look up
by name, return the existing row or a new unsaved object whose slug is the
name with each space replaced by a hyphen. -/
def save_fiction_type (db : DB) (fiction_type : String) : FictionTypeRow :=
  let fiction_type := normalize_fiction_type_name fiction_type
  match db.fiction_types.find? (fun f => f.name == fiction_type) with
  | some existing => existing
  | none =>
      { id := none, name := fiction_type,
        slug := String.mk (py_replace_char ' ' '-' fiction_type.data) }

/- ---------------------------------------------------------------- -/
/- Commit of a session holding unsaved Tag / FictionType objects     -/
/- ---------------------------------------------------------------- -/

/-- A storage-engine failure at commit. The schema declares uniqueness on
tag.name, fiction_type.name, fiction_type.slug, the composite primary key
of tagged_recommendations and (user_id, recommendation_id) of reaction. -/
inductive CommitError where
  | uniqueViolation
deriving DecidableEq, Repr

/-- Flushing a FictionType object: an already-persisted row keeps its id; a
fresh object is inserted, failing if its name or slug collides with an
existing row (both columns are unique). Returns the store and the id the
recommendation's fiction_type_id is set to. -/
def commit_fiction_type (db : DB) (f : FictionTypeRow) :
    Except CommitError (DB × Nat) :=
  match f.id with
  | some i => .ok (db, i)
  | none =>
      if db.fiction_types.any (fun g => g.name == f.name || g.slug == f.slug) then
        .error .uniqueViolation
      else
        .ok ({ db with
                fiction_types :=
                  db.fiction_types ++ [{ f with id := some db.nextId }],
                nextId := db.nextId + 1 },
             db.nextId)

/-- Flushing the list of Tag objects attached to a recommendation, in list
order: persisted rows keep their ids; each fresh object is inserted,
failing on the unique constraint if a row with its name already exists
(including one inserted earlier in the same flush). Returns the store and
the tag ids, in order. -/
def commit_tags (db : DB) (ts : List TagRow) :
    Except CommitError (DB × List Nat) :=
  match ts with
  | [] => .ok (db, [])
  | t :: rest =>
      match t.id with
      | some i =>
          match commit_tags db rest with
          | .error e => .error e
          | .ok (db1, ids) => .ok (db1, i :: ids)
      | none =>
          if db.tags.any (fun g => g.name == t.name) then
            .error .uniqueViolation
          else
            let db1 : DB :=
              { db with tags := db.tags ++ [{ t with id := some db.nextId }],
                        nextId := db.nextId + 1 }
            match commit_tags db1 rest with
            | .error e => .error e
            | .ok (db2, ids) => .ok (db2, db.nextId :: ids)

/-- Flushing the association rows of tagged_recommendations for one
recommendation: inserting the same (recommendation_id, tag_id) twice
violates the composite primary key. -/
def commit_links (db : DB) (recommendation_id : Nat) (tag_ids : List Nat) :
    Except CommitError DB :=
  match tag_ids with
  | [] => .ok db
  | i :: rest =>
      if db.tag_links.any
          (fun l => l.recommendation_id == recommendation_id && l.tag_id == i) then
        .error .uniqueViolation
      else
        commit_links
          { db with tag_links := db.tag_links ++ [⟨recommendation_id, i⟩] }
          recommendation_id rest

/- ---------------------------------------------------------------- -/
/- Request bodies (app/schemas.py)                                   -/
/- ---------------------------------------------------------------- -/

/-- app/schemas.py `RecommendationCreate`. -/
structure RecommendationCreate where
  title : String
  short_description : String
  opinion : String
  fiction_type : String
  tags : List String
deriving DecidableEq, Repr

/-- app/schemas.py `RecommendationUpdate`: every field optional; `some v`
means the field was present in the request body (pydantic exclude_unset
keeps it), `none` that it was absent. A field sent as JSON null behaves
exactly like the empty value under the handlers' truthiness tests, so it is
represented by the same falsy value. -/
structure RecommendationUpdate where
  title : Option String
  short_description : Option String
  opinion : Option String
  fiction_type : Option String
  tags : Option (List String)
deriving DecidableEq, Repr

/-- Python truthiness of `dict.get(key)` for an optional string field:
false when the key is absent (None) or the string is empty. -/
def truthyStr : Option String → Bool
  | none => false
  | some s => !(s == "")

/-- Python truthiness for an optional list field. -/
def truthyList : Option (List String) → Bool
  | none => false
  | some l => !l.isEmpty

/-- `data.dict(exclude_unset=True)` is the empty dict iff no field was set. -/
def RecommendationUpdate.isEmptyDict (d : RecommendationUpdate) : Bool :=
  d.title == none && d.short_description == none && d.opinion == none &&
    d.fiction_type == none && d.tags == none

/-- app/schemas.py `CommentUpdate`: a single required content field. -/
structure CommentUpdate where
  content : String
deriving DecidableEq, Repr

/- ---------------------------------------------------------------- -/
/- app/routers/recommendations.py handlers                           -/
/- ---------------------------------------------------------------- -/

/-- `POST /recommendations` (post_recommendation). The lookups of
`save_tags` / `save_fiction_type` run against `db_at_lookup`; the commit
runs against `db_at_commit`, which a concurrent request may have extended
in between (in a purely sequential run the two coincide). There is no
try/except around the commit, so an IntegrityError propagates as a 500 and
the transaction rolls back. -/
def post_recommendation (models_import_clock : Nat)
    (db_at_lookup db_at_commit : DB) (current_user : UserRow)
    (data : RecommendationCreate) : Except ApiError RecommendationRow × DB :=
  let tags := save_tags db_at_lookup data.tags
  let fiction_type := save_fiction_type db_at_lookup data.fiction_type
  match commit_fiction_type db_at_commit fiction_type with
  | .error _ => (.error .internalError, db_at_commit)
  | .ok (db1, fiction_type_id) =>
      match commit_tags db1 tags with
      | .error _ => (.error .internalError, db_at_commit)
      | .ok (db2, tag_ids) =>
          let recommendation : RecommendationRow :=
            { id := db2.nextId,
              title := data.title,
              short_description := data.short_description,
              opinion := data.opinion,
              published := recommendation_published_default models_import_clock,
              updated := none,
              user_id := current_user.id,
              fiction_type_id := fiction_type_id }
          let db3 : DB :=
            { db2 with
                recommendations := db2.recommendations ++ [recommendation],
                nextId := db2.nextId + 1 }
          match commit_links db3 recommendation.id tag_ids with
          | .error _ => (.error .internalError, db_at_commit)
          | .ok db4 => (.ok recommendation, db4)

/-- Replace a recommendation row in place (the flush of a mutated row). -/
def replace_recommendation (l : List RecommendationRow)
    (r : RecommendationRow) : List RecommendationRow :=
  l.map fun x => if x.id == r.id then r else x

/-- First stage of the update commit: flush the fresh fiction type when the
request set one, rewriting the row's fiction_type_id. -/
def commit_update_fiction_stage (db : DB) (r : RecommendationRow)
    (ft_obj : Option FictionTypeRow) :
    Except CommitError (DB × RecommendationRow) :=
  match ft_obj with
  | none => .ok (db, r)
  | some f =>
      match commit_fiction_type db f with
      | .error e => .error e
      | .ok (db1, fiction_type_id) =>
          .ok (db1, { r with fiction_type_id := fiction_type_id })

/-- Commit of `update_recommendation`: flush the fresh fiction type (if the
request set one), the fresh tags (if the request set tags, replacing the
association rows), and the mutated recommendation row, in one transaction;
any uniqueness violation aborts the whole commit. -/
def commit_recommendation_update (db : DB) (r : RecommendationRow)
    (ft_obj : Option FictionTypeRow) (tag_objs : Option (List TagRow)) :
    Except ApiError RecommendationRow × DB :=
  match commit_update_fiction_stage db r ft_obj with
  | .error _ => (.error .internalError, db)
  | .ok (db1, r1) =>
      match tag_objs with
      | none =>
          (.ok r1,
           { db1 with
               recommendations := replace_recommendation db1.recommendations r1 })
      | some ts =>
          match commit_tags db1 ts with
          | .error _ => (.error .internalError, db)
          | .ok (db2, tag_ids) =>
              let db3 : DB :=
                { db2 with
                    recommendations := replace_recommendation db2.recommendations r1,
                    tag_links :=
                      db2.tag_links.filter
                        (fun l => !(l.recommendation_id == r1.id)) }
              match commit_links db3 r1.id tag_ids with
              | .error _ => (.error .internalError, db)
              | .ok db4 => (.ok r1, db4)

/-- update_recommendation lines 137–147: overwrite title,
short_description and opinion in turn, each only when the requested value
is truthy (`if new_title:` etc.). -/
def apply_string_updates (r : RecommendationRow) (d : RecommendationUpdate) :
    RecommendationRow :=
  let r1 :=
    if truthyStr d.title then { r with title := d.title.getD "" } else r
  let r2 :=
    if truthyStr d.short_description then
      { r1 with short_description := d.short_description.getD "" }
    else r1
  if truthyStr d.opinion then { r2 with opinion := d.opinion.getD "" } else r2

/-- `PATCH /recommendations/id` (update_recommendation): look the row up
(404 if absent), check ownership (403), reject an empty update dict (400),
then overwrite each field only when its requested value is truthy, always
stamp `updated = datetime.utcnow()`, and commit. -/
def update_recommendation (request_clock : Nat) (db : DB)
    (recommendation_id : Nat) (current_user : UserRow)
    (data : RecommendationUpdate) : Except ApiError RecommendationRow × DB :=
  match get_recommendation_by_id db recommendation_id with
  | none =>
      (.error (.notFound ("Recommendation with id " ++ toString recommendation_id ++
        " was not found")), db)
  | some recommendation =>
      if recommendation.user_id ≠ current_user.id then
        (.error (.forbidden ("User has no permission to update recommendation with id " ++
          toString recommendation_id)), db)
      else if data.isEmptyDict then
        (.error (.badRequest "No data provided"), db)
      else
        commit_recommendation_update db
          { apply_string_updates recommendation data with
              updated := some (utcnow request_clock) }
          (if truthyStr data.fiction_type then
            some (save_fiction_type db (data.fiction_type.getD ""))
          else none)
          (if truthyList data.tags then
            some (save_tags db (data.tags.getD []))
          else none)

/-- `DELETE /recommendations/id` (delete_recommendation): 404 if absent,
403 if not owner, else delete the row; the ORM cascades delete the
recommendation's comments, reactions and association rows. -/
def delete_recommendation (db : DB) (recommendation_id : Nat)
    (current_user : UserRow) : Except ApiError Unit × DB :=
  match get_recommendation_by_id db recommendation_id with
  | none =>
      (.error (.notFound ("Recommendation with id " ++ toString recommendation_id ++
        " was not found")), db)
  | some recommendation =>
      if recommendation.user_id ≠ current_user.id then
        (.error (.forbidden ("User has no permission to delete recommendation with id " ++
          toString recommendation_id)), db)
      else
        (.ok (),
         { db with
             recommendations :=
               db.recommendations.filter (fun r => !(r.id == recommendation_id)),
             comments :=
               db.comments.filter (fun c => !(c.recommendation_id == recommendation_id)),
             reactions :=
               db.reactions.filter (fun x => !(x.recommendation_id == recommendation_id)),
             tag_links :=
               db.tag_links.filter (fun l => !(l.recommendation_id == recommendation_id)) })

/- ---------------------------------------------------------------- -/
/- app/routers/comments.py handlers                                  -/
/- ---------------------------------------------------------------- -/

/-- `POST /recommendations/id/comments` (post_comment): 404 when the
recommendation is absent, else insert the comment; `published` falls back
to the Field default evaluated at module import. -/
def post_comment (models_import_clock : Nat) (db : DB)
    (recommendation_id : Nat) (current_user : UserRow) (content : String) :
    Except ApiError CommentRow × DB :=
  match get_recommendation_by_id db recommendation_id with
  | none =>
      (.error (.notFound ("Recommendation with id " ++ toString recommendation_id ++
        " was not found")), db)
  | some recommendation =>
      let new_comment : CommentRow :=
        { id := db.nextId,
          content := content,
          published := comment_published_default models_import_clock,
          updated := none,
          user_id := current_user.id,
          recommendation_id := recommendation.id }
      (.ok new_comment,
       { db with comments := db.comments ++ [new_comment],
                 nextId := db.nextId + 1 })

/-- `PUT /recommendations/id/comments/id` (update_comment): 404 when the
recommendation or the comment is absent, 403 when not the owner; the new
content is applied only when truthy (`if new_content:`), `updated` is
always stamped with the request-time clock, then the row is committed. -/
def update_comment (request_clock : Nat) (db : DB)
    (recommendation_id comment_id : Nat) (current_user : UserRow)
    (data : CommentUpdate) : Except ApiError CommentRow × DB :=
  match get_recommendation_by_id db recommendation_id with
  | none =>
      (.error (.notFound ("Recommendation with id " ++ toString recommendation_id ++
        " was not found")), db)
  | some _ =>
      match get_comment_by_id_and_recommendation_id db recommendation_id comment_id with
      | none =>
          (.error (.notFound ("Comment with id " ++ toString comment_id ++
            " for recommendation with id " ++ toString recommendation_id ++
            " was not found")), db)
      | some comment =>
          if comment.user_id ≠ current_user.id then
            (.error (.forbidden ("User has no permission to update comment with id " ++
              toString comment_id)), db)
          else
            let c1 :=
              if !(data.content == "") then { comment with content := data.content }
              else comment
            let c2 := { c1 with updated := some (utcnow request_clock) }
            (.ok c2,
             { db with
                 comments := db.comments.map fun x => if x.id == c2.id then c2 else x })

/-- `DELETE /recommendations/id/comments/id` (delete_comment). -/
def delete_comment (db : DB) (recommendation_id comment_id : Nat)
    (current_user : UserRow) : Except ApiError Unit × DB :=
  match get_recommendation_by_id db recommendation_id with
  | none =>
      (.error (.notFound ("Recommendation with id " ++ toString recommendation_id ++
        " was not found")), db)
  | some _ =>
      match get_comment_by_id_and_recommendation_id db recommendation_id comment_id with
      | none =>
          (.error (.notFound ("Comment with id " ++ toString comment_id ++
            " for recommendation with id " ++ toString recommendation_id ++
            " was not found")), db)
      | some comment =>
          if comment.user_id ≠ current_user.id then
            (.error (.forbidden ("User has no permission to delete comment with id " ++
              toString comment_id)), db)
          else
            (.ok (),
             { db with comments := db.comments.filter (fun x => !(x.id == comment.id)) })

/- ---------------------------------------------------------------- -/
/- app/routers/reactions.py handlers                                 -/
/- ---------------------------------------------------------------- -/

/-- `POST /recommendations/id/reactions` (post_reaction): 404 when the
recommendation is absent; 409 when the acting user already has a reaction
for it (checked before any insert); else insert the new reaction. -/
def post_reaction (db : DB) (recommendation_id : Nat)
    (current_user : UserRow) (data_is_positive : Bool) :
    Except ApiError ReactionRow × DB :=
  match get_recommendation_by_id db recommendation_id with
  | none =>
      (.error (.notFound ("Recommendation with id " ++ toString recommendation_id ++
        " was not found")), db)
  | some recommendation =>
      match get_reaction_by_recommendation_id_and_user_id db
          recommendation.id current_user.id with
      | some _ =>
          (.error (.conflict ("User already has a reaction for recommendation with id " ++
            toString recommendation_id ++
            ", creating another one will create conflict")), db)
      | none =>
          let new_reaction : ReactionRow :=
            { id := db.nextId,
              is_positive := data_is_positive,
              user_id := current_user.id,
              recommendation_id := recommendation.id }
          (.ok new_reaction,
           { db with reactions := db.reactions ++ [new_reaction],
                     nextId := db.nextId + 1 })

/-- `PUT /recommendations/id/reactions/id` (update_reaction): 404 / 404 /
403 checks, then `is_positive` is assigned unconditionally and committed. -/
def update_reaction (db : DB) (recommendation_id reaction_id : Nat)
    (current_user : UserRow) (data_is_positive : Bool) :
    Except ApiError ReactionRow × DB :=
  match get_recommendation_by_id db recommendation_id with
  | none =>
      (.error (.notFound ("Recommendation with id " ++ toString recommendation_id ++
        " was not found")), db)
  | some _ =>
      match get_reaction_by_id_and_recommendation_id db recommendation_id reaction_id with
      | none =>
          (.error (.notFound ("Reaction with id " ++ toString reaction_id ++
            " for recommendation with id " ++ toString recommendation_id ++
            " was not found")), db)
      | some reaction =>
          if reaction.user_id ≠ current_user.id then
            (.error (.forbidden ("User has no permission to update reaction with id " ++
              toString reaction_id)), db)
          else
            let r1 := { reaction with is_positive := data_is_positive }
            (.ok r1,
             { db with
                 reactions := db.reactions.map fun x => if x.id == r1.id then r1 else x })

/-- `DELETE /recommendations/id/reactions/id` (delete_reaction). -/
def delete_reaction (db : DB) (recommendation_id reaction_id : Nat)
    (current_user : UserRow) : Except ApiError Unit × DB :=
  match get_recommendation_by_id db recommendation_id with
  | none =>
      (.error (.notFound ("Recommendation with id " ++ toString recommendation_id ++
        " was not found")), db)
  | some _ =>
      match get_reaction_by_id_and_recommendation_id db recommendation_id reaction_id with
      | none =>
          (.error (.notFound ("Reaction with id " ++ toString reaction_id ++
            " for recommendation with id " ++ toString recommendation_id ++
            " was not found")), db)
      | some reaction =>
          if reaction.user_id ≠ current_user.id then
            (.error (.forbidden ("User has no permission to delete reaction with id " ++
              toString reaction_id)), db)
          else
            (.ok (),
             { db with reactions := db.reactions.filter (fun x => !(x.id == reaction.id)) })

/- ---------------------------------------------------------------- -/
/- Spec-side contract definitions and the password hasher model      -/
/- ---------------------------------------------------------------- -/

/-- The spec's AuthorizationGuard contract, stated from its words:
`canMutate(actingIdentity, resource) = actingIdentity.id == resource.owner_id`. -/
def canMutate (actor_id owner_id : Nat) : Bool := actor_id == owner_id

/-- After the trim, collapse each internal run of whitespace to the single
separator while lower-casing everything else (the spec's wording): a
whitespace character followed by more whitespace is dropped, the last of a
run becomes the separator. -/
def spec_collapse (separator : Char) : List Char → List Char
  | [] => []
  | [c] => if is_py_space c then [separator] else [py_lower_char c]
  | c :: d :: rest =>
      if is_py_space c && is_py_space d then
        spec_collapse separator (d :: rest)
      else
        (if is_py_space c then separator else py_lower_char c) ::
          spec_collapse separator (d :: rest)

/-- The spec's normalization, stated from its words for comparison with the
code's: trim surrounding whitespace, collapse each internal run of
whitespace to a single separator, lower-case. -/
def spec_normalize (separator : Char) (s : String) : String :=
  String.mk (spec_collapse separator (py_strip s.data))

/-- Modelled from the spec: the PasswordHasher (`app/auth.py`, providing
`get_password_hash` and `verify_password`) is imported by the routers,
tests and conftest but its source is not under src/. Per spec sections 3
and 4.1 the hash is an opaque token embedding a per-hash random salt and a
digest of salt and plaintext; the salt drawn by each call is passed in
explicitly. -/
structure HashToken where
  salt : Nat
  digestValue : Nat
deriving DecidableEq, Repr

/-- Modelled from the spec: a deterministic one-way digest of salt and
plaintext (stand-in for the KDF). -/
def password_digest (salt : Nat) (plaintext : String) : Nat :=
  plaintext.foldl (fun a c => a * 131 + c.toNat) (salt * 257 + 13)

/-- Modelled from the spec: `hash(plaintext)` with the per-call random salt
made explicit. -/
def get_password_hash (salt : Nat) (plaintext : String) : HashToken :=
  { salt := salt, digestValue := password_digest salt plaintext }

/-- Modelled from the spec: `verify(plaintext, stored)` recomputes the
digest with the stored salt and compares. -/
def verify_password (plaintext : String) (stored : HashToken) : Bool :=
  password_digest stored.salt plaintext == stored.digestValue

/- ---------------------------------------------------------------- -/
/- Concrete stores used by the witnesses                             -/
/- ---------------------------------------------------------------- -/

/-- A store with every table empty. -/
def emptyDB : DB :=
  { fiction_types := [], tags := [], tag_links := [], recommendations := [],
    comments := [], reactions := [], nextId := 1 }

/-- Identity A of the witness scenarios. -/
def alice : UserRow :=
  { id := 1, username := "alice", email := "alice@x.com", hashed_password := "h1" }

/-- Identity B of the witness scenarios, distinct from A. -/
def bob : UserRow :=
  { id := 2, username := "bobby", email := "bob@x.com", hashed_password := "h2" }

/-- A persisted fiction-type row. -/
def movieRow : FictionTypeRow := { id := some 3, name := "movie", slug := "movie" }

/-- A recommendation owned by alice. -/
def recW : RecommendationRow :=
  { id := 10, title := "Whiplash", short_description := "S", opinion := "O",
    published := 0, updated := none, user_id := 1, fiction_type_id := 3 }

/-- A comment on recW owned by alice. -/
def comW : CommentRow :=
  { id := 20, content := "hello", published := 0, updated := none,
    user_id := 1, recommendation_id := 10 }

/-- A reaction to recW owned by alice. -/
def reaW : ReactionRow :=
  { id := 30, is_positive := true, user_id := 1, recommendation_id := 10 }

/-- The populated witness store. -/
def dbW : DB :=
  { fiction_types := [movieRow], tags := [], tag_links := [],
    recommendations := [recW], comments := [comW], reactions := [reaW],
    nextId := 31 }

/- ---------------------------------------------------------------- -/
/- Helper lemmas                                                     -/
/- ---------------------------------------------------------------- -/

/-- The commit of a recommendation update never yields the 403 outcome:
its only failure is the internal 500. -/
theorem aux_commit_update_not_forbidden (db : DB) (r : RecommendationRow)
    (f : Option FictionTypeRow) (ts : Option (List TagRow)) :
    isForbidden (commit_recommendation_update db r f ts).1 = false := by
  cases h1 : commit_update_fiction_stage db r f with
  | error e => simp only [commit_recommendation_update, h1]; rfl
  | ok p =>
      obtain ⟨db1, r1⟩ := p
      cases ts with
      | none => simp only [commit_recommendation_update, h1]; rfl
      | some ts =>
          cases h2 : commit_tags db1 ts with
          | error e => simp only [commit_recommendation_update, h1, h2]; rfl
          | ok q =>
              obtain ⟨db2, ids⟩ := q
              simp only [commit_recommendation_update, h1, h2]
              split <;> rfl

/-- C1: for update and delete of each owned-resource kind, a resource that
exists and is not owned by the acting identity yields Forbidden (403) with
the store unchanged; the owner passes the ownership check (the response is
never 403 for the owner); the decision is in every handler exactly the
equality test `canMutate actingId ownerId = (actingId == ownerId)`, with no
per-kind special casing. -/
theorem c1_ownership_guard_uniform :
    (∀ a b : Nat, canMutate a b = true ↔ a = b) ∧
    (∀ s, (ApiError.forbidden s).statusCode = 403) ∧
    (∀ rc db rid u d r, get_recommendation_by_id db rid = some r →
      (canMutate u.id r.user_id = false →
        update_recommendation rc db rid u d =
          (.error (.forbidden ("User has no permission to update recommendation with id " ++
            toString rid)), db)) ∧
      (canMutate u.id r.user_id = true →
        isForbidden (update_recommendation rc db rid u d).1 = false)) ∧
    (∀ db rid u r, get_recommendation_by_id db rid = some r →
      (canMutate u.id r.user_id = false →
        delete_recommendation db rid u =
          (.error (.forbidden ("User has no permission to delete recommendation with id " ++
            toString rid)), db)) ∧
      (canMutate u.id r.user_id = true →
        isForbidden (delete_recommendation db rid u).1 = false)) ∧
    (∀ rc db rid cid u d r c, get_recommendation_by_id db rid = some r →
      get_comment_by_id_and_recommendation_id db rid cid = some c →
      (canMutate u.id c.user_id = false →
        update_comment rc db rid cid u d =
          (.error (.forbidden ("User has no permission to update comment with id " ++
            toString cid)), db)) ∧
      (canMutate u.id c.user_id = true →
        isForbidden (update_comment rc db rid cid u d).1 = false)) ∧
    (∀ db rid cid u r c, get_recommendation_by_id db rid = some r →
      get_comment_by_id_and_recommendation_id db rid cid = some c →
      (canMutate u.id c.user_id = false →
        delete_comment db rid cid u =
          (.error (.forbidden ("User has no permission to delete comment with id " ++
            toString cid)), db)) ∧
      (canMutate u.id c.user_id = true →
        isForbidden (delete_comment db rid cid u).1 = false)) ∧
    (∀ db rid xid u p r x, get_recommendation_by_id db rid = some r →
      get_reaction_by_id_and_recommendation_id db rid xid = some x →
      (canMutate u.id x.user_id = false →
        update_reaction db rid xid u p =
          (.error (.forbidden ("User has no permission to update reaction with id " ++
            toString xid)), db)) ∧
      (canMutate u.id x.user_id = true →
        isForbidden (update_reaction db rid xid u p).1 = false)) ∧
    (∀ db rid xid u r x, get_recommendation_by_id db rid = some r →
      get_reaction_by_id_and_recommendation_id db rid xid = some x →
      (canMutate u.id x.user_id = false →
        delete_reaction db rid xid u =
          (.error (.forbidden ("User has no permission to delete reaction with id " ++
            toString xid)), db)) ∧
      (canMutate u.id x.user_id = true →
        isForbidden (delete_reaction db rid xid u).1 = false)) := by
  refine ⟨?_, ?_, ?_, ?_, ?_, ?_, ?_, ?_⟩
  · intro a b; simp [canMutate]
  · intro s; rfl
  · intro rc db rid u d r hr
    have hne : canMutate u.id r.user_id = false → r.user_id ≠ u.id := by
      intro h e; simp [canMutate, e] at h
    have heq : canMutate u.id r.user_id = true → ¬ r.user_id ≠ u.id := by
      intro h; simp [canMutate] at h; simp [h]
    constructor
    · intro hcm
      simp only [update_recommendation, hr]
      rw [if_pos (hne hcm)]
    · intro hcm
      simp only [update_recommendation, hr]
      rw [if_neg (heq hcm)]
      split
      · rfl
      · exact aux_commit_update_not_forbidden _ _ _ _
  · intro db rid u r hr
    have hne : canMutate u.id r.user_id = false → r.user_id ≠ u.id := by
      intro h e; simp [canMutate, e] at h
    have heq : canMutate u.id r.user_id = true → ¬ r.user_id ≠ u.id := by
      intro h; simp [canMutate] at h; simp [h]
    constructor
    · intro hcm
      simp only [delete_recommendation, hr]
      rw [if_pos (hne hcm)]
    · intro hcm
      simp only [delete_recommendation, hr]
      rw [if_neg (heq hcm)]
      rfl
  · intro rc db rid cid u d r c hr hc
    have hne : canMutate u.id c.user_id = false → c.user_id ≠ u.id := by
      intro h e; simp [canMutate, e] at h
    have heq : canMutate u.id c.user_id = true → ¬ c.user_id ≠ u.id := by
      intro h; simp [canMutate] at h; simp [h]
    constructor
    · intro hcm
      simp only [update_comment, hr, hc]
      rw [if_pos (hne hcm)]
    · intro hcm
      simp only [update_comment, hr, hc]
      rw [if_neg (heq hcm)]
      rfl
  · intro db rid cid u r c hr hc
    have hne : canMutate u.id c.user_id = false → c.user_id ≠ u.id := by
      intro h e; simp [canMutate, e] at h
    have heq : canMutate u.id c.user_id = true → ¬ c.user_id ≠ u.id := by
      intro h; simp [canMutate] at h; simp [h]
    constructor
    · intro hcm
      simp only [delete_comment, hr, hc]
      rw [if_pos (hne hcm)]
    · intro hcm
      simp only [delete_comment, hr, hc]
      rw [if_neg (heq hcm)]
      rfl
  · intro db rid xid u p r x hr hx
    have hne : canMutate u.id x.user_id = false → x.user_id ≠ u.id := by
      intro h e; simp [canMutate, e] at h
    have heq : canMutate u.id x.user_id = true → ¬ x.user_id ≠ u.id := by
      intro h; simp [canMutate] at h; simp [h]
    constructor
    · intro hcm
      simp only [update_reaction, hr, hx]
      rw [if_pos (hne hcm)]
    · intro hcm
      simp only [update_reaction, hr, hx]
      rw [if_neg (heq hcm)]
      rfl
  · intro db rid xid u r x hr hx
    have hne : canMutate u.id x.user_id = false → x.user_id ≠ u.id := by
      intro h e; simp [canMutate, e] at h
    have heq : canMutate u.id x.user_id = true → ¬ x.user_id ≠ u.id := by
      intro h; simp [canMutate] at h; simp [h]
    constructor
    · intro hcm
      simp only [delete_reaction, hr, hx]
      rw [if_pos (hne hcm)]
    · intro hcm
      simp only [delete_reaction, hr, hx]
      rw [if_neg (heq hcm)]
      rfl

/-- Witness for C1: in the populated store, bob (id 2) is forbidden from
deleting alice's recommendation, comment and reaction and every row is
unchanged, while alice (id 1) is never forbidden. -/
theorem c1_ownership_guard_uniform_witness :
    delete_recommendation dbW 10 bob =
      (.error (.forbidden "User has no permission to delete recommendation with id 10"), dbW) ∧
    delete_comment dbW 10 20 bob =
      (.error (.forbidden "User has no permission to delete comment with id 20"), dbW) ∧
    delete_reaction dbW 10 30 bob =
      (.error (.forbidden "User has no permission to delete reaction with id 30"), dbW) ∧
    isForbidden (delete_recommendation dbW 10 alice).1 = false ∧
    canMutate bob.id recW.user_id = false ∧
    canMutate alice.id recW.user_id = true := by
  have h := c1_ownership_guard_uniform
  refine ⟨?_, ?_, ?_, ?_, by decide, by decide⟩
  · exact (h.2.2.2.1 dbW 10 bob recW (by decide)).1 (by decide)
  · exact (h.2.2.2.2.2.1 dbW 10 20 bob recW comW (by decide) (by decide)).1 (by decide)
  · exact (h.2.2.2.2.2.2.2 dbW 10 30 bob recW reaW (by decide) (by decide)).1 (by decide)
  · exact (h.2.2.2.1 dbW 10 alice recW (by decide)).2 (by decide)

/-- C2: for every mutating operation on an owned resource and every acting
identity, an absent target yields Not Found (404) with the store
unchanged and never Forbidden; the Forbidden outcome is reachable only
when the target resource was found to exist. -/
theorem c2_existence_precedes_ownership :
    (∀ s, (ApiError.notFound s).statusCode = 404) ∧
    (∀ rc db rid u d, get_recommendation_by_id db rid = none →
      update_recommendation rc db rid u d =
        (.error (.notFound ("Recommendation with id " ++ toString rid ++
          " was not found")), db)) ∧
    (∀ db rid u, get_recommendation_by_id db rid = none →
      delete_recommendation db rid u =
        (.error (.notFound ("Recommendation with id " ++ toString rid ++
          " was not found")), db)) ∧
    (∀ rc db rid cid u d, get_comment_by_id_and_recommendation_id db rid cid = none →
      isNotFound (update_comment rc db rid cid u d).1 = true ∧
      isForbidden (update_comment rc db rid cid u d).1 = false ∧
      (update_comment rc db rid cid u d).2 = db) ∧
    (∀ db rid cid u, get_comment_by_id_and_recommendation_id db rid cid = none →
      isNotFound (delete_comment db rid cid u).1 = true ∧
      isForbidden (delete_comment db rid cid u).1 = false ∧
      (delete_comment db rid cid u).2 = db) ∧
    (∀ db rid xid u p, get_reaction_by_id_and_recommendation_id db rid xid = none →
      isNotFound (update_reaction db rid xid u p).1 = true ∧
      isForbidden (update_reaction db rid xid u p).1 = false ∧
      (update_reaction db rid xid u p).2 = db) ∧
    (∀ db rid xid u, get_reaction_by_id_and_recommendation_id db rid xid = none →
      isNotFound (delete_reaction db rid xid u).1 = true ∧
      isForbidden (delete_reaction db rid xid u).1 = false ∧
      (delete_reaction db rid xid u).2 = db) ∧
    (∀ rc db rid u d, isForbidden (update_recommendation rc db rid u d).1 = true →
      ∃ r, get_recommendation_by_id db rid = some r) ∧
    (∀ db rid u, isForbidden (delete_recommendation db rid u).1 = true →
      ∃ r, get_recommendation_by_id db rid = some r) ∧
    (∀ rc db rid cid u d, isForbidden (update_comment rc db rid cid u d).1 = true →
      ∃ c, get_comment_by_id_and_recommendation_id db rid cid = some c) ∧
    (∀ db rid cid u, isForbidden (delete_comment db rid cid u).1 = true →
      ∃ c, get_comment_by_id_and_recommendation_id db rid cid = some c) ∧
    (∀ db rid xid u p, isForbidden (update_reaction db rid xid u p).1 = true →
      ∃ x, get_reaction_by_id_and_recommendation_id db rid xid = some x) ∧
    (∀ db rid xid u, isForbidden (delete_reaction db rid xid u).1 = true →
      ∃ x, get_reaction_by_id_and_recommendation_id db rid xid = some x) := by
  refine ⟨fun _ => rfl, ?_, ?_, ?_, ?_, ?_, ?_, ?_, ?_, ?_, ?_, ?_, ?_⟩
  · intro rc db rid u d h
    simp only [update_recommendation, h]
  · intro db rid u h
    simp only [delete_recommendation, h]
  · intro rc db rid cid u d h
    cases hr : get_recommendation_by_id db rid with
    | none => simp only [update_comment, hr]; simp [isNotFound, isForbidden]
    | some r => simp only [update_comment, hr, h]; simp [isNotFound, isForbidden]
  · intro db rid cid u h
    cases hr : get_recommendation_by_id db rid with
    | none => simp only [delete_comment, hr]; simp [isNotFound, isForbidden]
    | some r => simp only [delete_comment, hr, h]; simp [isNotFound, isForbidden]
  · intro db rid xid u p h
    cases hr : get_recommendation_by_id db rid with
    | none => simp only [update_reaction, hr]; simp [isNotFound, isForbidden]
    | some r => simp only [update_reaction, hr, h]; simp [isNotFound, isForbidden]
  · intro db rid xid u h
    cases hr : get_recommendation_by_id db rid with
    | none => simp only [delete_reaction, hr]; simp [isNotFound, isForbidden]
    | some r => simp only [delete_reaction, hr, h]; simp [isNotFound, isForbidden]
  · intro rc db rid u d hf
    cases hr : get_recommendation_by_id db rid with
    | none => simp only [update_recommendation, hr, isForbidden] at hf; exact Bool.noConfusion hf
    | some r => exact ⟨r, rfl⟩
  · intro db rid u hf
    cases hr : get_recommendation_by_id db rid with
    | none => simp only [delete_recommendation, hr, isForbidden] at hf; exact Bool.noConfusion hf
    | some r => exact ⟨r, rfl⟩
  · intro rc db rid cid u d hf
    cases hr : get_recommendation_by_id db rid with
    | none => simp only [update_comment, hr, isForbidden] at hf; exact Bool.noConfusion hf
    | some r =>
        cases hc : get_comment_by_id_and_recommendation_id db rid cid with
        | none => simp only [update_comment, hr, hc, isForbidden] at hf; exact Bool.noConfusion hf
        | some c => exact ⟨c, rfl⟩
  · intro db rid cid u hf
    cases hr : get_recommendation_by_id db rid with
    | none => simp only [delete_comment, hr, isForbidden] at hf; exact Bool.noConfusion hf
    | some r =>
        cases hc : get_comment_by_id_and_recommendation_id db rid cid with
        | none => simp only [delete_comment, hr, hc, isForbidden] at hf; exact Bool.noConfusion hf
        | some c => exact ⟨c, rfl⟩
  · intro db rid xid u p hf
    cases hr : get_recommendation_by_id db rid with
    | none => simp only [update_reaction, hr, isForbidden] at hf; exact Bool.noConfusion hf
    | some r =>
        cases hx : get_reaction_by_id_and_recommendation_id db rid xid with
        | none => simp only [update_reaction, hr, hx, isForbidden] at hf; exact Bool.noConfusion hf
        | some x => exact ⟨x, rfl⟩
  · intro db rid xid u hf
    cases hr : get_recommendation_by_id db rid with
    | none => simp only [delete_reaction, hr, isForbidden] at hf; exact Bool.noConfusion hf
    | some r =>
        cases hx : get_reaction_by_id_and_recommendation_id db rid xid with
        | none => simp only [delete_reaction, hr, hx, isForbidden] at hf; exact Bool.noConfusion hf
        | some x => exact ⟨x, rfl⟩

/-- Witness for C2: deleting nonexistent resources in the populated store,
as any of the two identities, yields 404 with the store unchanged. -/
theorem c2_existence_precedes_ownership_witness :
    delete_recommendation dbW 99 bob =
      (.error (.notFound "Recommendation with id 99 was not found"), dbW) ∧
    isNotFound (delete_comment dbW 10 99 bob).1 = true ∧
    isForbidden (delete_comment dbW 10 99 bob).1 = false ∧
    (delete_comment dbW 10 99 bob).2 = dbW ∧
    isNotFound (delete_reaction dbW 10 99 alice).1 = true := by
  have h := c2_existence_precedes_ownership
  refine ⟨?_, ?_, ?_, ?_, ?_⟩
  · exact h.2.2.1 dbW 99 bob (by decide)
  · exact (h.2.2.2.2.1 dbW 10 99 bob (by decide)).1
  · exact (h.2.2.2.2.1 dbW 10 99 bob (by decide)).2.1
  · exact (h.2.2.2.2.1 dbW 10 99 bob (by decide)).2.2
  · exact (h.2.2.2.2.2.2.1 dbW 10 99 alice (by decide)).1

/-- A store that concurrently gained the canonical "space" tag between this
request's dedup lookup and its commit (the concurrent winner's row, id 5). -/
def dbSpaceTag : DB :=
  { emptyDB with tags := [{ id := some 5, name := "space" }], nextId := 6 }

/-- The creation request of the C5 race. -/
def dataSpace : RecommendationCreate :=
  { title := "Interstellar", short_description := "S", opinion := "O",
    fiction_type := "movie", tags := ["space"] }

/-- C3 (code evaluated at the failing input): on a store without a sci-fy
tag, a single creation request whose tag list is ["Sci-Fy", " sci-fy "]
produces TWO distinct unsaved Tag objects both named "sci-fy" — the second
lookup cannot see the first object because it was never added to the
session — and the request's commit then violates the unique constraint on
tag.name and the whole request fails as an unhandled 500, instead of the
one canonical row referenced once that the spec requires. -/
theorem c3_duplicate_labels_in_one_request :
    save_tags emptyDB ["Sci-Fy", " sci-fy "] =
      [{ id := none, name := "sci-fy" }, { id := none, name := "sci-fy" }] ∧
    commit_tags emptyDB (save_tags emptyDB ["Sci-Fy", " sci-fy "]) =
      .error .uniqueViolation ∧
    post_recommendation 0 emptyDB emptyDB alice
      { title := "Dune", short_description := "S", opinion := "O",
        fiction_type := "movie", tags := ["Sci-Fy", " sci-fy "] } =
      (.error .internalError, emptyDB) := by
  exact ⟨rfl, rfl, rfl⟩

/-- C4 counterexample: the code's normalization does not collapse internal
whitespace runs to a single separator. On the raw label "Sci  Fy" (two
internal spaces) the code produces "sci--fy" (one hyphen per space) where
the spec's normalization produces "sci-fy"; for a fiction type the
canonical name even keeps its internal spaces. -/
theorem c4_normalization_counterexample :
    normalize_tag_name "Sci  Fy" = "sci--fy" ∧
    spec_normalize '-' "Sci  Fy" = "sci-fy" ∧
    normalize_tag_name "Sci  Fy" ≠ spec_normalize '-' "Sci  Fy" ∧
    normalize_fiction_type_name "Sci  Fy" = "sci  fy" := by
  refine ⟨by decide, by decide, by decide, by decide⟩

/-- C4 amended: the deduplicator trims surrounding whitespace and
lower-cases; internal spaces are replaced one for one by hyphens in a tag
name (runs are NOT collapsed) and kept as-is in a fiction-type name, with
the hyphen substitution applied only to the fiction-type slug. The lookup
then runs on the normalized name and returns the existing row when found,
else a newly constructed unsaved row (id = none) carrying the normalized
value, persisted only by the enclosing parent write's commit. -/
theorem c4_dedup_lookup_or_fresh :
    (∀ db raw t,
        db.tags.find? (fun x => x.name == normalize_tag_name raw) = some t →
        save_tags db [raw] = [t]) ∧
    (∀ db raw,
        db.tags.find? (fun x => x.name == normalize_tag_name raw) = none →
        save_tags db [raw] = [{ id := none, name := normalize_tag_name raw }]) ∧
    (∀ db raw f,
        db.fiction_types.find?
          (fun x => x.name == normalize_fiction_type_name raw) = some f →
        save_fiction_type db raw = f) ∧
    (∀ db raw,
        db.fiction_types.find?
          (fun x => x.name == normalize_fiction_type_name raw) = none →
        save_fiction_type db raw =
          { id := none, name := normalize_fiction_type_name raw,
            slug := String.mk (py_replace_char ' ' '-'
              (normalize_fiction_type_name raw).data) }) ∧
    normalize_tag_name "  Sci-Fy " = "sci-fy" ∧
    normalize_tag_name "Sci  Fy" = "sci--fy" ∧
    normalize_fiction_type_name " Sci Fy " = "sci fy" ∧
    (save_fiction_type emptyDB " Sci Fy ").id = none ∧
    (save_fiction_type emptyDB " Sci Fy ").slug = "sci-fy" ∧
    (save_tags emptyDB ["  Sci-Fy "]).map TagRow.id = [none] := by
  refine ⟨?_, ?_, ?_, ?_, by decide, by decide, by decide, by decide, by decide, by decide⟩
  · intro db raw t h
    simp only [save_tags, List.map_cons, List.map_nil, h]
  · intro db raw h
    simp only [save_tags, List.map_cons, List.map_nil, h]
  · intro db raw f h
    simp only [save_fiction_type, h]
  · intro db raw h
    simp only [save_fiction_type, h]

/-- Witness for C4 (amended): a concrete hit and a concrete miss of the
lookup, through the theorem. -/
theorem c4_dedup_lookup_or_fresh_witness :
    save_tags dbSpaceTag ["  Space "] = [{ id := some 5, name := "space" }] ∧
    save_tags emptyDB ["  Space "] = [{ id := none, name := "space" }] := by
  have h := c4_dedup_lookup_or_fresh
  constructor
  · exact h.1 dbSpaceTag "  Space " { id := some 5, name := "space" } (by decide)
  · exact h.2.1 emptyDB "  Space " (by decide)

/-- C5 counterexample: the loser of the dedup race does not detect the
unique violation and does not retry the lookup: where the claim requires
the request to succeed reusing the winner's row, the code surfaces an
unhandled internal error (500) and rolls back. -/
theorem c5_no_retry_counterexample :
    save_tags emptyDB ["space"] = [{ id := none, name := "space" }] ∧
    (∃ t, t ∈ dbSpaceTag.tags ∧ t.name = "space") ∧
    post_recommendation 0 emptyDB dbSpaceTag alice dataSpace =
      (.error .internalError, dbSpaceTag) := by
  exact ⟨rfl, ⟨{ id := some 5, name := "space" }, by decide, rfl⟩, rfl⟩

/-- C5 amended: the handler performs no retry at all: a uniqueness
violation at commit — on the fiction-type stage or on the tag stage — is
treated like every other storage failure: the request aborts, the
transaction rolls back, and the outcome is the internal error (500). -/
theorem c5_commit_failure_not_retried :
    (∀ ic dbl dbc u d,
        commit_fiction_type dbc (save_fiction_type dbl d.fiction_type) =
          .error .uniqueViolation →
        post_recommendation ic dbl dbc u d = (.error .internalError, dbc)) ∧
    (∀ ic dbl dbc u d db1 ftid,
        commit_fiction_type dbc (save_fiction_type dbl d.fiction_type) =
          .ok (db1, ftid) →
        commit_tags db1 (save_tags dbl d.tags) = .error .uniqueViolation →
        post_recommendation ic dbl dbc u d = (.error .internalError, dbc)) := by
  constructor
  · intro ic dbl dbc u d h
    simp only [post_recommendation, h]
  · intro ic dbl dbc u d db1 ftid h1 h2
    simp only [post_recommendation, h1, h2]

/-- Witness for C5 (amended): the concrete race world, through the theorem:
the fiction-type stage succeeds, the tag stage hits the unique violation,
and the request surfaces the internal error with the store rolled back. -/
theorem c5_commit_failure_not_retried_witness :
    post_recommendation 0 emptyDB dbSpaceTag alice dataSpace =
      (.error .internalError, dbSpaceTag) := by
  exact c5_commit_failure_not_retried.2 0 emptyDB dbSpaceTag alice dataSpace
    { dbSpaceTag with
        fiction_types := [{ id := some 6, name := "movie", slug := "movie" }],
        nextId := 7 }
    6 rfl rfl

/-- At most one reaction row per (user_id, recommendation_id) pair. -/
def unique_user_reaction (l : List ReactionRow) : Prop :=
  ∀ a, a ∈ l → ∀ b, b ∈ l →
    a.user_id = b.user_id → a.recommendation_id = b.recommendation_id → a = b

instance unique_user_reaction.instDecidable (l : List ReactionRow) :
    Decidable (unique_user_reaction l) := by
  unfold unique_user_reaction
  infer_instance

/-- C6: posting a reaction to a recommendation for which the acting user
already has one fails with Conflict (409) and leaves the store unchanged;
and the handler preserves the at-most-one-reaction-per-(user,
recommendation) invariant. -/
theorem c6_one_reaction_per_user :
    (∀ s, (ApiError.conflict s).statusCode = 409) ∧
    (∀ db rid u p r x,
        get_recommendation_by_id db rid = some r →
        get_reaction_by_recommendation_id_and_user_id db r.id u.id = some x →
        post_reaction db rid u p =
          (.error (.conflict ("User already has a reaction for recommendation with id " ++
            toString rid ++ ", creating another one will create conflict")), db)) ∧
    (∀ db rid u p, unique_user_reaction db.reactions →
        unique_user_reaction (post_reaction db rid u p).2.reactions) := by
  refine ⟨fun _ => rfl, ?_, ?_⟩
  · intro db rid u p r x hr hx
    simp only [post_reaction, hr, hx]
  · intro db rid u p hu
    cases hr : get_recommendation_by_id db rid with
    | none => simpa only [post_reaction, hr] using hu
    | some r =>
        cases hx : get_reaction_by_recommendation_id_and_user_id db r.id u.id with
        | some x => simpa only [post_reaction, hr, hx] using hu
        | none =>
            simp only [post_reaction, hr, hx]
            intro a ha b hb h1 h2
            have hnone := List.find?_eq_none.mp hx
            rcases List.mem_append.mp ha with ha' | ha' <;>
              rcases List.mem_append.mp hb with hb' | hb'
            · exact hu a ha' b hb' h1 h2
            · have hb2 := List.mem_singleton.mp hb'
              subst hb2
              exfalso
              have := hnone a ha'
              simp only [get_reaction_by_recommendation_id_and_user_id] at this
              simp [h1, h2] at this
            · have ha2 := List.mem_singleton.mp ha'
              subst ha2
              exfalso
              have := hnone b hb'
              simp only [get_reaction_by_recommendation_id_and_user_id] at this
              simp [← h1, ← h2] at this
            · rw [List.mem_singleton.mp ha', List.mem_singleton.mp hb']

/-- Witness for C6: alice, who already reacted to recommendation 10, gets
the 409 with the store unchanged; bob's post keeps the invariant. -/
theorem c6_one_reaction_per_user_witness :
    post_reaction dbW 10 alice true =
      (.error (.conflict "User already has a reaction for recommendation with id 10, creating another one will create conflict"), dbW) ∧
    unique_user_reaction (post_reaction dbW 10 bob true).2.reactions := by
  constructor
  · exact c6_one_reaction_per_user.2.1 dbW 10 alice true recW reaW (by decide) (by decide)
  · exact c6_one_reaction_per_user.2.2 dbW 10 bob true (by decide)

/-- C7 (spec-modelled, app/auth.py absent from src/): verify(p, hash(p)) is
true for every plaintext and every drawn salt, and two hash calls drawing
different salts produce different hash values, both of which verify. -/
theorem c7_password_hash_roundtrip :
    ∀ (p : String) (s1 s2 : Nat),
      verify_password p (get_password_hash s1 p) = true ∧
      verify_password p (get_password_hash s2 p) = true ∧
      (s1 ≠ s2 → get_password_hash s1 p ≠ get_password_hash s2 p) := by
  intro p s1 s2
  refine ⟨?_, ?_, ?_⟩
  · simp [verify_password, get_password_hash]
  · simp [verify_password, get_password_hash]
  · intro hne he
    exact hne (congrArg HashToken.salt he)

/-- Witness for C7: the conftest password, two concrete salts. -/
theorem c7_password_hash_roundtrip_witness :
    verify_password "34somepassword34" (get_password_hash 0 "34somepassword34") = true ∧
    verify_password "34somepassword34" (get_password_hash 1 "34somepassword34") = true ∧
    get_password_hash 0 "34somepassword34" ≠ get_password_hash 1 "34somepassword34" := by
  have h := c7_password_hash_roundtrip "34somepassword34" 0 1
  exact ⟨h.1, h.2.1, h.2.2 (by decide)⟩

/-- The fiction stage of the update commit only rewrites fiction_type_id:
every other field of the row survives. -/
theorem aux_fiction_stage_ok_fields (db : DB) (r : RecommendationRow)
    (f : Option FictionTypeRow) (db1 : DB) (r1 : RecommendationRow)
    (h : commit_update_fiction_stage db r f = .ok (db1, r1)) :
    r1.title = r.title ∧ r1.short_description = r.short_description ∧
    r1.opinion = r.opinion ∧ r1.updated = r.updated ∧ r1.id = r.id ∧
    r1.user_id = r.user_id ∧ r1.published = r.published := by
  cases f with
  | none =>
      simp only [commit_update_fiction_stage, Except.ok.injEq, Prod.mk.injEq] at h
      rw [← h.2]
      exact ⟨rfl, rfl, rfl, rfl, rfl, rfl, rfl⟩
  | some ft =>
      cases hcf : commit_fiction_type db ft with
      | error e => simp [commit_update_fiction_stage, hcf] at h
      | ok p =>
          obtain ⟨dbx, fid⟩ := p
          simp only [commit_update_fiction_stage, hcf, Except.ok.injEq,
            Prod.mk.injEq] at h
          rw [← h.2]
          exact ⟨rfl, rfl, rfl, rfl, rfl, rfl, rfl⟩

/-- A successful update commit returns the row it was given to flush, up to
the fiction_type_id rewrite: all content fields survive. -/
theorem aux_commit_update_ok_fields (db : DB) (r : RecommendationRow)
    (f : Option FictionTypeRow) (ts : Option (List TagRow))
    (r' : RecommendationRow)
    (h : (commit_recommendation_update db r f ts).1 = .ok r') :
    r'.title = r.title ∧ r'.short_description = r.short_description ∧
    r'.opinion = r.opinion ∧ r'.updated = r.updated ∧ r'.id = r.id ∧
    r'.user_id = r.user_id ∧ r'.published = r.published := by
  cases h1 : commit_update_fiction_stage db r f with
  | error e => simp [commit_recommendation_update, h1] at h
  | ok p =>
      obtain ⟨db1, r1⟩ := p
      have hf := aux_fiction_stage_ok_fields db r f db1 r1 h1
      have hr1 : r1.title = r.title ∧ r1.short_description = r.short_description ∧
          r1.opinion = r.opinion ∧ r1.updated = r.updated ∧ r1.id = r.id ∧
          r1.user_id = r.user_id ∧ r1.published = r.published := hf
      cases ts with
      | none =>
          simp only [commit_recommendation_update, h1, Except.ok.injEq] at h
          rw [← h]
          exact hr1
      | some tl =>
          cases h2 : commit_tags db1 tl with
          | error e => simp [commit_recommendation_update, h1, h2] at h
          | ok q =>
              obtain ⟨db2, ids⟩ := q
              simp only [commit_recommendation_update, h1, h2] at h
              split at h
              · exact absurd h (by simp)
              · simp only [Except.ok.injEq] at h
                rw [← h]
                exact hr1

/-- With the row looked up, the owner acting and a nonempty update dict,
the PATCH handler is exactly the commit of the conditionally updated row
with the updated stamp. -/
theorem aux_update_recommendation_eq (rc : Nat) (db : DB) (rid : Nat)
    (u : UserRow) (d : RecommendationUpdate) (r : RecommendationRow)
    (hr : get_recommendation_by_id db rid = some r)
    (hown : r.user_id = u.id)
    (hE : d.isEmptyDict = false) :
    update_recommendation rc db rid u d =
      commit_recommendation_update db
        { apply_string_updates r d with updated := some (utcnow rc) }
        (if truthyStr d.fiction_type then
          some (save_fiction_type db (d.fiction_type.getD ""))
        else none)
        (if truthyList d.tags then
          some (save_tags db (d.tags.getD []))
        else none) := by
  simp only [update_recommendation, hr]
  rw [if_neg (by simp [hown]), if_neg (by simp [hE])]

/-- A falsy requested title leaves the stored title untouched. -/
theorem aux_apply_updates_title_falsy (r : RecommendationRow)
    (d : RecommendationUpdate) (hd : truthyStr d.title = false) :
    (apply_string_updates r d).title = r.title := by
  simp only [apply_string_updates, hd, Bool.false_eq_true, if_false]
  split
  · split <;> rfl
  · split <;> rfl

/-- A falsy requested short_description leaves the stored one untouched. -/
theorem aux_apply_updates_short_description_falsy (r : RecommendationRow)
    (d : RecommendationUpdate) (hd : truthyStr d.short_description = false) :
    (apply_string_updates r d).short_description = r.short_description := by
  simp only [apply_string_updates, hd, Bool.false_eq_true, if_false]
  split
  · split <;> rfl
  · split <;> rfl

/-- A falsy requested opinion leaves the stored one untouched. -/
theorem aux_apply_updates_opinion_falsy (r : RecommendationRow)
    (d : RecommendationUpdate) (hd : truthyStr d.opinion = false) :
    (apply_string_updates r d).opinion = r.opinion := by
  simp only [apply_string_updates, hd, Bool.false_eq_true, if_false]
  split
  · split <;> rfl
  · split <;> rfl

/-- C8: in the PATCH of a recommendation, a field present in the body with
a falsy value (the empty string, for title, short_description or opinion)
is treated like an absent field: the stored field keeps its previous
value, and the whole request behaves exactly as if the field had not been
sent (whenever dropping it still leaves the update dict nonempty). -/
theorem c8_falsy_patch_fields_kept :
    ∀ rc db rid u d r, get_recommendation_by_id db rid = some r →
      r.user_id = u.id →
      ((d.title = some "" → ∀ r',
          (update_recommendation rc db rid u d).1 = .ok r' → r'.title = r.title) ∧
       (d.short_description = some "" → ∀ r',
          (update_recommendation rc db rid u d).1 = .ok r' →
          r'.short_description = r.short_description) ∧
       (d.opinion = some "" → ∀ r',
          (update_recommendation rc db rid u d).1 = .ok r' →
          r'.opinion = r.opinion) ∧
       (d.title = some "" →
          RecommendationUpdate.isEmptyDict { d with title := none } = false →
          update_recommendation rc db rid u d =
            update_recommendation rc db rid u { d with title := none }) ∧
       (d.short_description = some "" →
          RecommendationUpdate.isEmptyDict { d with short_description := none } = false →
          update_recommendation rc db rid u d =
            update_recommendation rc db rid u { d with short_description := none }) ∧
       (d.opinion = some "" →
          RecommendationUpdate.isEmptyDict { d with opinion := none } = false →
          update_recommendation rc db rid u d =
            update_recommendation rc db rid u { d with opinion := none })) := by
  intro rc db rid u d r hr hown
  refine ⟨?_, ?_, ?_, ?_, ?_, ?_⟩
  · intro hd r' hok
    have hE : d.isEmptyDict = false := by
      simp [RecommendationUpdate.isEmptyDict, hd]
    rw [aux_update_recommendation_eq rc db rid u d r hr hown hE] at hok
    have hf := aux_commit_update_ok_fields _ _ _ _ _ hok
    rw [hf.1]
    exact aux_apply_updates_title_falsy r d (by simp [truthyStr, hd])
  · intro hd r' hok
    have hE : d.isEmptyDict = false := by
      simp [RecommendationUpdate.isEmptyDict, hd]
    rw [aux_update_recommendation_eq rc db rid u d r hr hown hE] at hok
    have hf := aux_commit_update_ok_fields _ _ _ _ _ hok
    rw [hf.2.1]
    exact aux_apply_updates_short_description_falsy r d (by simp [truthyStr, hd])
  · intro hd r' hok
    have hE : d.isEmptyDict = false := by
      simp [RecommendationUpdate.isEmptyDict, hd]
    rw [aux_update_recommendation_eq rc db rid u d r hr hown hE] at hok
    have hf := aux_commit_update_ok_fields _ _ _ _ _ hok
    rw [hf.2.2.1]
    exact aux_apply_updates_opinion_falsy r d (by simp [truthyStr, hd])
  · intro hd hne
    have hE : d.isEmptyDict = false := by
      simp [RecommendationUpdate.isEmptyDict, hd]
    rw [aux_update_recommendation_eq rc db rid u d r hr hown hE,
        aux_update_recommendation_eq rc db rid u { d with title := none } r hr hown hne]
    simp [apply_string_updates, truthyStr, hd]
  · intro hd hne
    have hE : d.isEmptyDict = false := by
      simp [RecommendationUpdate.isEmptyDict, hd]
    rw [aux_update_recommendation_eq rc db rid u d r hr hown hE,
        aux_update_recommendation_eq rc db rid u { d with short_description := none } r hr hown hne]
    simp [apply_string_updates, truthyStr, hd]
  · intro hd hne
    have hE : d.isEmptyDict = false := by
      simp [RecommendationUpdate.isEmptyDict, hd]
    rw [aux_update_recommendation_eq rc db rid u d r hr hown hE,
        aux_update_recommendation_eq rc db rid u { d with opinion := none } r hr hown hne]
    simp [apply_string_updates, truthyStr, hd]

/-- Witness for C8: alice patches her recommendation with an empty title
and a real opinion: the stored title survives, and the outcome equals the
one of the request without the title field. -/
theorem c8_falsy_patch_fields_kept_witness :
    (∀ r', (update_recommendation 7 dbW 10 alice
        { title := some "", short_description := none, opinion := some "new",
          fiction_type := none, tags := none }).1 = .ok r' →
        r'.title = recW.title) ∧
    update_recommendation 7 dbW 10 alice
        { title := some "", short_description := none, opinion := some "new",
          fiction_type := none, tags := none } =
      update_recommendation 7 dbW 10 alice
        { title := none, short_description := none, opinion := some "new",
          fiction_type := none, tags := none } := by
  have h := c8_falsy_patch_fields_kept 7 dbW 10 alice
    { title := some "", short_description := none, opinion := some "new",
      fiction_type := none, tags := none } recW (by decide) (by decide)
  exact ⟨h.1 rfl, h.2.2.2.1 rfl (by decide)⟩

/-- C9: the default published timestamp of Recommendation and Comment rows
is the single `datetime.utcnow()` reading taken when app/models.py is
imported: every row created without an explicit published value carries
the import-time clock, so any two such rows of the same process coincide,
whatever the stores, users and contents at their creation. -/
theorem c9_published_default_at_import :
    (∀ ic, recommendation_published_default ic = utcnow ic ∧
        comment_published_default ic = utcnow ic) ∧
    (∀ ic db rid u s c, (post_comment ic db rid u s).1 = .ok c →
        c.published = utcnow ic) ∧
    (∀ ic dbl dbc u d r, (post_recommendation ic dbl dbc u d).1 = .ok r →
        r.published = utcnow ic) ∧
    (∀ ic db1 db2 rid1 rid2 u1 u2 s1 s2 c1 c2,
        (post_comment ic db1 rid1 u1 s1).1 = .ok c1 →
        (post_comment ic db2 rid2 u2 s2).1 = .ok c2 →
        c1.published = c2.published) := by
  have hcom : ∀ ic db rid u s c, (post_comment ic db rid u s).1 = .ok c →
      c.published = utcnow ic := by
    intro ic db rid u s c hok
    cases hr : get_recommendation_by_id db rid with
    | none => simp [post_comment, hr] at hok
    | some r =>
        simp only [post_comment, hr, Except.ok.injEq] at hok
        rw [← hok]
        rfl
  refine ⟨fun ic => ⟨rfl, rfl⟩, hcom, ?_, ?_⟩
  · intro ic dbl dbc u d r hok
    cases h1 : commit_fiction_type dbc (save_fiction_type dbl d.fiction_type) with
    | error e => simp [post_recommendation, h1] at hok
    | ok p =>
        obtain ⟨db1, fid⟩ := p
        cases h2 : commit_tags db1 (save_tags dbl d.tags) with
        | error e => simp [post_recommendation, h1, h2] at hok
        | ok q =>
            obtain ⟨db2, ids⟩ := q
            simp only [post_recommendation, h1, h2] at hok
            split at hok
            · exact absurd hok (by simp)
            · simp only [Except.ok.injEq] at hok
              rw [← hok]
              rfl
  · intro ic db1 db2 rid1 rid2 u1 u2 s1 s2 c1 c2 h1 h2
    rw [hcom ic db1 rid1 u1 s1 c1 h1, hcom ic db2 rid2 u2 s2 c2 h2]

/-- Witness for C9: a concrete comment posted at import clock 42 carries
published = 42, through the theorem. -/
theorem c9_published_default_at_import_witness :
    (post_comment 42 dbW 10 alice "first").1 =
      .ok { id := 31, content := "first", published := 42, updated := none,
            user_id := 1, recommendation_id := 10 } ∧
    ({ id := 31, content := "first", published := 42, updated := none,
       user_id := 1, recommendation_id := 10 } : CommentRow).published =
      utcnow 42 := by
  refine ⟨rfl, ?_⟩
  exact c9_published_default_at_import.2.1 42 dbW 10 alice "first" _ rfl

/-- C10: a PUT of a comment by its owner with empty content succeeds: the
stored content is kept, the updated stamp is overwritten with the request
clock, and user_id and recommendation_id survive unchanged. -/
theorem c10_put_comment_empty_content :
    ∀ rc db rid cid u r c,
      get_recommendation_by_id db rid = some r →
      get_comment_by_id_and_recommendation_id db rid cid = some c →
      c.user_id = u.id →
      update_comment rc db rid cid u { content := "" } =
        (.ok { c with updated := some (utcnow rc) },
         { db with comments := db.comments.map (fun x =>
             if x.id == c.id then { c with updated := some (utcnow rc) } else x) }) ∧
      ({ c with updated := some (utcnow rc) } : CommentRow).content = c.content ∧
      ({ c with updated := some (utcnow rc) } : CommentRow).user_id = c.user_id ∧
      ({ c with updated := some (utcnow rc) } : CommentRow).recommendation_id =
        c.recommendation_id := by
  intro rc db rid cid u r c hr hc hown
  refine ⟨?_, rfl, rfl, rfl⟩
  simp only [update_comment, hr, hc]
  rw [if_neg (by simp [hown])]
  simp

/-- Witness for C10: alice rewrites her comment with the empty string at
clock 7: 200, content kept, stamp overwritten. -/
theorem c10_put_comment_empty_content_witness :
    update_comment 7 dbW 10 20 alice { content := "" } =
      (.ok { comW with updated := some (utcnow 7) },
       { dbW with comments := [{ comW with updated := some (utcnow 7) }] }) := by
  have h := (c10_put_comment_empty_content 7 dbW 10 20 alice recW comW
    (by decide) (by decide) (by decide)).1
  rw [h]
  rfl

end FastapiProject

